import Mathlib

/-!
Verification of the AI telephone-game loop (`telephonedenisaSTREAMLIT.py`).

A shallow embedding of the telephone-game script's core: the per-cycle
capability calls `generate_image` / `analyze_image`, the run loop inside
`main` (lines 203–279 of the source), the in-memory session state
(`st.session_state.game_state`), and the per-run text log file.

External effects are modelled by an oracle environment `GenEnv`:
per cycle, the outcome of the image-generation API call, the value of
`int(time.time())` observed when the image artifact is saved, and the
outcome of the vision-analysis API call.  Results of the OpenAI calls are
`Except String _` values: `.ok` is a normal return, `.error` is a raised
exception (caught by the script's `try`/`except`).
-/

namespace Telephone

/-- Per-run oracle for the external world.  `hasClient` models the truthiness
of `get_client()` (it depends only on the configured API key, which does not
change during one script execution).  `genApi k` is the outcome of the
`client.images.generate` call (plus image download) on cycle `k`: `.ok url`
on success, `.error msg` when an exception is raised.  `genTime k` is the
`int(time.time())` read inside `generate_image` on cycle `k`.  `anaApi k`
is the outcome of the `client.chat.completions.create` call on cycle `k`. -/
structure GenEnv where
  hasClient : Bool
  genApi : Nat → Except String String
  genTime : Nat → Nat
  anaApi : Nat → Except String String

/-- The artifact path `f"telephone_game/image_{timestamp}.png"` (source line 71). -/
def imagePathOf (t : Nat) : String :=
  "telephone_game/image_" ++ Nat.repr t ++ ".png"

/-- The log path `f"telephone_game/game_log_{timestamp}.txt"` (source line 214). -/
def gameLogPath (t : Nat) : String :=
  "telephone_game/game_log_" ++ Nat.repr t ++ ".txt"

/-- The in-memory PIL image `Image.open(BytesIO(image_response.content))`
(source line 64), an opaque value determined by the downloaded URL. -/
def decodedImage (url : String) : String :=
  "decoded:" ++ url

/-- The function `generate_image(prompt)` (source lines 43–80), as observed by its caller.
The Python function returns a tuple, modelled as a list of optional values so
that the *arity* of each `return` statement is preserved:
* no client (line 48): `return None, None, None` — three values;
* success (line 75): `return image, image_path, image_url` — three values;
* exception caught (line 80): `return None, None, None, None` — four values. -/
def generate_image (hasClient : Bool) (t : Nat) (api : Except String String) :
    List (Option String) :=
  if hasClient = false then [none, none, none]
  else
    match api with
    | .ok url => [some (decodedImage url), some (imagePathOf t), some url]
    | .error _ => [none, none, none, none]

/-- The function `analyze_image(image_url)` (source lines 82–124): `None` when no client
or when the API call raises, otherwise the returned description. -/
def analyze_image (hasClient : Bool) (api : Except String String) :
    Option String :=
  if hasClient = false then none
  else
    match api with
    | .ok description => some description
    | .error _ => none

/-- One entry of `st.session_state.game_state['cycles']`: the `cycle_data`
dict built at source lines 250–256. -/
structure CycleData where
  cycle : Nat
  prompt : String
  image : Option String
  image_path : Option String
  description : String
deriving DecidableEq, Inhabited

/-- One appended record of the per-run log file.  `header` is the block
written at lines 218–221 (title, start time, initial prompt); `cycleBlock`
is the block written at lines 260–264; `footer` is the completion line
written at lines 276–277. -/
inductive LogEntry where
  | header (startTime initialPrompt : String)
  | cycleBlock (cycle cycles : Nat) (prompt : String)
      (imagePath : Option String) (description : String)
  | footer (endTime : String)
deriving DecidableEq, Inhabited

/-- The mutable state touched by the run loop: the session's cycle list and
the log file's contents (a list of appended records). -/
structure RunState where
  cycles : List CycleData
  log : List LogEntry
deriving DecidableEq

/-- How the `for cycle in range(1, cycles + 1)` loop ends:
* `completed` — the range was exhausted;
* `aborted k` — `break` was taken on cycle `k` (lines 238 or 247);
* `valueError k` — on cycle `k` the tuple returned by `generate_image` did
  not have three components, so the unpacking at line 234 raised an
  uncaught `ValueError` and the script run died there. -/
inductive Outcome where
  | completed
  | aborted (k : Nat)
  | valueError (k : Nat)
deriving DecidableEq

/-- Result of the loop: state, the final value of the `current_prompt`
variable, and how the loop ended. -/
structure LoopOut where
  state : RunState
  prompt : String
  outcome : Outcome
deriving DecidableEq

/-- The run loop, source lines 228–270.  The first list argument is the
remaining iteration values of `range(1, cycles + 1)`; `N` is the slider
value `cycles` (used only inside the log block text). -/
def gameLoop (env : GenEnv) (N : Nat) :
    List Nat → String → RunState → LoopOut
  | [], current_prompt, st => ⟨st, current_prompt, .completed⟩
  | cycle :: rest, current_prompt, st =>
    match generate_image env.hasClient (env.genTime cycle) (env.genApi cycle) with
    | [image, image_path, _image_url] =>
      -- `image, image_path, image_url = generate_image(current_prompt)` succeeded
      if image = none then
        -- `if not image: ... break` (lines 235–238)
        ⟨st, current_prompt, .aborted cycle⟩
      else
        match analyze_image env.hasClient (env.anaApi cycle) with
        | none =>
          -- `if not new_description: ... break` (lines 244–247)
          ⟨st, current_prompt, .aborted cycle⟩
        | some new_description =>
          if new_description = "" then
            -- an empty string is also falsy in Python, so it breaks too
            ⟨st, current_prompt, .aborted cycle⟩
          else
            let cycle_data : CycleData :=
              ⟨cycle, current_prompt, image, image_path, new_description⟩
            gameLoop env N rest new_description
              ⟨st.cycles ++ [cycle_data],
               st.log ++ [.cycleBlock cycle N current_prompt image_path
                            new_description]⟩
    | _ =>
      -- the tuple does not have three components: uncaught ValueError
      ⟨st, current_prompt, .valueError cycle⟩

/-- Final observable state of one started run. `running` is
`game_state['running']` when the script run ends (it stays `true` when an
uncaught exception kills the script before line 279). -/
structure GameResult where
  state : RunState
  running : Bool
  outcome : Outcome
  log_path : String
deriving DecidableEq

/-- One started run: source lines 204–279.  The header is written before
cycle 1; after the loop the footer append (lines 276–277) and
`running = False` (line 279) are executed whether the loop completed or
broke — but not when the loop died with an uncaught exception. -/
def startGame (env : GenEnv) (cycles : Nat) (initial_prompt : String)
    (startTs : Nat) (startTime endTime : String) : GameResult :=
  let log_path := gameLogPath startTs
  let st0 : RunState := ⟨[], [.header startTime initial_prompt]⟩
  let r := gameLoop env cycles (List.range' 1 cycles) initial_prompt st0
  match r.outcome with
  | .valueError _ => ⟨r.state, true, r.outcome, log_path⟩
  | _ =>
    ⟨⟨r.state.cycles, r.state.log ++ [.footer endTime]⟩, false, r.outcome,
      log_path⟩

/-- The spec's session status, as an abstraction of the run's control path:
the loop exhausting all requested cycles is `Completed` (the script then
reports "✅ Game completed!"), a `break` is `Aborted`, and an uncaught
exception leaves the session neither terminal state (`running` stays
`True`). -/
inductive Status where
  | Running
  | Completed
  | Aborted
deriving DecidableEq

def GameResult.status (r : GameResult) : Status :=
  match r.outcome with
  | .completed => .Completed
  | .aborted _ => .Aborted
  | .valueError _ => .Running

/-- Observable effect of one press-of-start dispatch (source lines
200–216): whether the no-API-key warning was shown, whether a fresh
session was started (line 205), which game-log files were created, and the
run's result when one ran. -/
structure MainResult where
  warned : Bool
  started : Bool
  logsCreated : List String
  result : Option GameResult
deriving DecidableEq

/-- The dispatch in `main` (source lines 200–216):
`if not get_client(): st.warning(...)`,
`elif start_button and initial_prompt: <run>`, else nothing. -/
def mainStart (env : GenEnv) (start_button : Bool) (initial_prompt : String)
    (cycles : Nat) (startTs : Nat) (startTime endTime : String) : MainResult :=
  if env.hasClient = false then ⟨true, false, [], none⟩
  else if start_button && !(initial_prompt == "") then
    ⟨false, true, [gameLogPath startTs],
      some (startGame env cycles initial_prompt startTs startTime endTime)⟩
  else ⟨false, false, [], none⟩

/-! ### Derived descriptions of a run, used to state the loop's behaviour -/

/-- The description produced by cycle `k`'s analysis call (meaningful when
that call succeeded). -/
def descOf (env : GenEnv) (k : Nat) : String :=
  match env.anaApi k with
  | .ok d => d
  | .error _ => ""

/-- The url produced by cycle `k`'s generation call (meaningful when that
call succeeded). -/
def urlOf (env : GenEnv) (k : Nat) : String :=
  match env.genApi k with
  | .ok u => u
  | .error _ => ""

/-- The prompt used by cycle `i`, for a loop segment that starts at cycle
`k` with current prompt `p`: cycle `k` itself uses `p`, and each later
cycle uses the previous cycle's description. -/
def promptFrom (env : GenEnv) (p : String) (k i : Nat) : String :=
  if i ≤ k then p else descOf env (i - 1)

/-- The `cycle_data` record that cycle `i` appends when it succeeds, for a
loop segment starting at cycle `k` with prompt `p`. -/
def recFrom (env : GenEnv) (p : String) (k i : Nat) : CycleData :=
  ⟨i, promptFrom env p k i, some (decodedImage (urlOf env i)),
    some (imagePathOf (env.genTime i)), descOf env i⟩

/-- The log block that cycle `i` appends when it succeeds. -/
def blkFrom (env : GenEnv) (p : String) (k N i : Nat) : LogEntry :=
  .cycleBlock i N (promptFrom env p k i) (some (imagePathOf (env.genTime i)))
    (descOf env i)

/-- Cycle `i` runs to completion (appends a record and continues): the
client is present, generation succeeds, and analysis returns a non-falsy
(non-empty) description. -/
def cycleOkB (env : GenEnv) (i : Nat) : Bool :=
  env.hasClient &&
    (match env.genApi i with | .ok _ => true | .error _ => false) &&
    (match env.anaApi i with | .ok d => !(d == "") | .error _ => false)

/-- Cycle `i` raises the uncaught `ValueError`: the client is present and
the generation API call raises, so `generate_image` returns a 4-tuple. -/
def genCrashB (env : GenEnv) (i : Nat) : Bool :=
  env.hasClient &&
    (match env.genApi i with | .ok _ => false | .error _ => true)

/-- Number of consecutive successful cycles starting at cycle `k`, out of
`m` remaining iterations. -/
def okLen (env : GenEnv) : Nat → Nat → Nat
  | _, 0 => 0
  | k, m + 1 => if cycleOkB env k then okLen env (k + 1) m + 1 else 0

/-! ### Concrete capability stubs -/

/-- The spec's concrete scenario: generation always succeeds, analysis
always returns `"a feline in pointed headwear"`. -/
def stubEnv : GenEnv :=
  ⟨true, fun _ => .ok "https://oaidalle.example/img.png", fun k => k,
    fun _ => .ok "a feline in pointed headwear"⟩

/-- Client configured, but the generation API call raises on every cycle. -/
def genFailEnv : GenEnv :=
  ⟨true, fun _ => .error "APIConnectionError", fun _ => 0,
    fun _ => .ok "a description"⟩

/-- Client configured, generation succeeds, but the generation API raises
only on cycle 2. -/
def genFail2Env : GenEnv :=
  ⟨true, fun k => if k = 2 then .error "RateLimitError" else .ok "https://u",
    fun k => 100 + k, fun _ => .ok "a description"⟩

/-- Client configured, generation always succeeds, analysis raises only on
cycle 2. -/
def anaFail2Env : GenEnv :=
  ⟨true, fun _ => .ok "https://img", fun k => k,
    fun k => if k = 2 then .error "BadRequestError" else .ok ("desc" ++ Nat.repr k)⟩

/-- No API key configured anywhere. -/
def noKeyEnv : GenEnv :=
  ⟨false, fun _ => .ok "https://u", fun _ => 0, fun _ => .ok "d"⟩





/-! ### Injectivity of the decimal rendering used in file names

Both artifact names interpolate `int(time.time())` in decimal
(`Nat.repr` in the embedding), so we prove that decimal rendering is
injective: distinct timestamps give distinct names. -/

theorem digitChar_inj_lt (a b : Nat) (ha : a < 10) (hb : b < 10)
    (h : Nat.digitChar a = Nat.digitChar b) : a = b := by
  have key : ∀ x y : Fin 10, Nat.digitChar x.val = Nat.digitChar y.val → x = y := by
    decide
  exact congrArg Fin.val (key ⟨a, ha⟩ ⟨b, hb⟩ h)

theorem map_digitChar_inj :
    ∀ l1 l2 : List Nat, (∀ x ∈ l1, x < 10) → (∀ x ∈ l2, x < 10) →
      l1.map Nat.digitChar = l2.map Nat.digitChar → l1 = l2
  | [], [], _, _, _ => rfl
  | [], _ :: _, _, _, h => by simp at h
  | _ :: _, [], _, _, h => by simp at h
  | a :: l1, b :: l2, h1, h2, h => by
    simp only [List.map_cons, List.cons.injEq] at h
    have hab : a = b :=
      digitChar_inj_lt a b (h1 a (List.mem_cons_self ..)) (h2 b (List.mem_cons_self ..)) h.1
    have htl : l1 = l2 :=
      map_digitChar_inj l1 l2 (fun x hx => h1 x (List.mem_cons_of_mem _ hx))
        (fun x hx => h2 x (List.mem_cons_of_mem _ hx)) h.2
    rw [hab, htl]

theorem toDigitsCore_eq_digits :
    ∀ fuel n : Nat, ∀ ds : List Char, 0 < n → n < fuel →
      Nat.toDigitsCore 10 fuel n ds =
        ((Nat.digits 10 n).map Nat.digitChar).reverse ++ ds := by
  intro fuel
  induction fuel with
  | zero => intro n ds h1 h2; omega
  | succ f ih =>
    intro n ds h1 h2
    by_cases hdiv : n / 10 = 0
    · have hn10 : n < 10 := by
        rcases Nat.lt_or_ge n 10 with h | h
        · exact h
        · exact absurd hdiv (by have := Nat.div_le_div_right (c := 10) h; simp at this; omega)
      simp only [Nat.toDigitsCore, hdiv, if_true]
      rw [Nat.digits_def' (by norm_num : (1:ℕ) < 10) h1, hdiv, Nat.digits_zero,
        Nat.mod_eq_of_lt hn10]
      simp
    · have hpos : 0 < n / 10 := Nat.pos_of_ne_zero hdiv
      have hlt : n / 10 < f := by
        have : n / 10 < n := Nat.div_lt_self h1 (by norm_num)
        omega
      simp only [Nat.toDigitsCore, hdiv, if_false]
      rw [ih (n / 10) _ hpos hlt, Nat.digits_def' (by norm_num : (1:ℕ) < 10) h1]
      simp

theorem repr_eq_digits (n : Nat) (h : 0 < n) :
    Nat.repr n = (((Nat.digits 10 n).map Nat.digitChar).reverse).asString := by
  rw [Nat.repr, Nat.toDigits,
    toDigitsCore_eq_digits (n + 1) n [] h (Nat.lt_succ_self n), List.append_nil]

theorem nat_repr_inj (m n : Nat) (h : Nat.repr m = Nat.repr n) : m = n := by
  have data_eq : ∀ l1 l2 : List Char, l1.asString = l2.asString → l1 = l2 := by
    intro l1 l2 hl
    exact congrArg String.data hl
  have digits_eq_of_pos :
      ∀ a b : Nat, 0 < a → 0 < b → Nat.repr a = Nat.repr b → a = b := by
    intro a b ha hb hab
    rw [repr_eq_digits a ha, repr_eq_digits b hb] at hab
    have hrev := data_eq _ _ hab
    have hmap : (Nat.digits 10 a).map Nat.digitChar = (Nat.digits 10 b).map Nat.digitChar :=
      List.reverse_injective hrev
    have hdig : Nat.digits 10 a = Nat.digits 10 b :=
      map_digitChar_inj _ _ (fun _ hx => Nat.digits_lt_base (by norm_num) hx)
        (fun _ hx => Nat.digits_lt_base (by norm_num) hx) hmap
    exact Nat.digits_inj_iff.mp hdig
  have repr_zero_pos : ∀ a : Nat, 0 < a → Nat.repr 0 ≠ Nat.repr a := by
    intro a ha hz
    rw [repr_eq_digits a ha] at hz
    have h0 : Nat.repr 0 = (['0'] : List Char).asString := by decide
    rw [h0] at hz
    have hl := data_eq _ _ hz
    have hmap : (Nat.digits 10 a).map Nat.digitChar = ['0'] := by
      have := congrArg List.reverse hl
      simpa using this.symm
    have hdig : Nat.digits 10 a = [0] :=
      map_digitChar_inj _ _ (fun _ hx => Nat.digits_lt_base (by norm_num) hx)
        (by intro x hx; simp at hx; omega)
        (by rw [hmap]; decide)
    have : a = 0 := by
      have hof := Nat.ofDigits_digits 10 a
      rw [hdig] at hof
      simpa [Nat.ofDigits] using hof.symm
    omega
  rcases Nat.eq_zero_or_pos m with hm | hm
  · rcases Nat.eq_zero_or_pos n with hn | hn
    · omega
    · exact absurd (hm ▸ h) (repr_zero_pos n hn)
  · rcases Nat.eq_zero_or_pos n with hn | hn
    · exact absurd (hn ▸ h.symm) (repr_zero_pos m hm)
    · exact digits_eq_of_pos m n hm hn h

theorem gameLogPath_inj (t1 t2 : Nat) (h : gameLogPath t1 = gameLogPath t2) :
    t1 = t2 := by
  apply nat_repr_inj
  apply String.ext
  have hd := congrArg String.data h
  simp only [gameLogPath, String.data_append] at hd
  have h1 := List.append_cancel_right hd
  exact List.append_cancel_left h1

theorem imagePathOf_inj (t1 t2 : Nat) (h : imagePathOf t1 = imagePathOf t2) :
    t1 = t2 := by
  apply nat_repr_inj
  apply String.ext
  have hd := congrArg String.data h
  simp only [imagePathOf, String.data_append] at hd
  have h1 := List.append_cancel_right hd
  exact List.append_cancel_left h1

/-! ### Exact characterisation of the run loop -/

theorem promptFrom_self (env : GenEnv) (p : String) (k : Nat) :
    promptFrom env p k k = p := by
  simp [promptFrom]

theorem promptFrom_step (env : GenEnv) (p d : String) (k i : Nat)
    (hd : descOf env k = d) (hi : k + 1 ≤ i) :
    promptFrom env d (k + 1) i = promptFrom env p k i := by
  unfold promptFrom
  rcases Nat.lt_or_ge (k + 1) i with h | h
  · rw [if_neg (by omega), if_neg (by omega)]
  · have hik : i = k + 1 := by omega
    subst hik
    rw [if_pos (Nat.le_refl _), if_neg (by omega)]
    simpa using hd.symm

/-- The loop over the iteration values `range' k m`, started with prompt
`p` and state `st`, runs exactly `okLen env k m` successful cycles,
appending their records and log blocks, and then either completes or stops
at the first non-successful cycle — by `break` (`aborted`) normally, or by
the uncaught unpacking `ValueError` when the generation API call raised. -/
theorem gameLoop_range' (env : GenEnv) (N : Nat) :
    ∀ (m k : Nat) (p : String) (st : RunState),
      gameLoop env N (List.range' k m) p st =
        ⟨⟨st.cycles ++ (List.range' k (okLen env k m)).map (recFrom env p k),
          st.log ++ (List.range' k (okLen env k m)).map (blkFrom env p k N)⟩,
         promptFrom env p k (k + okLen env k m),
         if okLen env k m = m then .completed
         else if genCrashB env (k + okLen env k m) then
           .valueError (k + okLen env k m)
         else .aborted (k + okLen env k m)⟩ := by
  intro m
  induction m with
  | zero =>
    intro k p st
    simp [gameLoop, okLen, promptFrom]
  | succ m ih =>
    intro k p st
    rw [List.range'_succ]
    by_cases hc : env.hasClient
    · rcases hgen : env.genApi k with e | u
      · -- generation API raised: 4-tuple, uncaught ValueError
        have hok : cycleOkB env k = false := by simp [cycleOkB, hc, hgen]
        have hcrash : genCrashB env k = true := by simp [genCrashB, hc, hgen]
        simp [gameLoop, generate_image, okLen, hok, hc, hgen, hcrash,
          promptFrom_self]
      · rcases hana : env.anaApi k with e | d
        · -- analysis API raised: break
          have hok : cycleOkB env k = false := by simp [cycleOkB, hc, hana]
          have hcrash : genCrashB env k = false := by simp [genCrashB, hc, hgen]
          simp [gameLoop, generate_image, analyze_image, decodedImage,
            okLen, hok, hc, hgen, hana, hcrash, promptFrom_self]
        · by_cases hd : d = ""
          · -- empty description is falsy: break
            subst hd
            have hok : cycleOkB env k = false := by simp [cycleOkB, hc, hana]
            have hcrash : genCrashB env k = false := by simp [genCrashB, hc, hgen]
            simp [gameLoop, generate_image, analyze_image, decodedImage,
              okLen, hok, hc, hgen, hana, hcrash, promptFrom_self]
          · -- the cycle succeeds; recurse
            have hok : cycleOkB env k = true := by
              simp [cycleOkB, hc, hgen, hana, hd]
            have hdesc : descOf env k = d := by simp [descOf, hana]
            have hurl : urlOf env k = u := by simp [urlOf, hgen]
            have hstep :
                gameLoop env N (k :: List.range' (k + 1) m) p st =
                  gameLoop env N (List.range' (k + 1) m) d
                    ⟨st.cycles ++
                       [⟨k, p, some (decodedImage u),
                          some (imagePathOf (env.genTime k)), d⟩],
                      st.log ++
                       [.cycleBlock k N p (some (imagePathOf (env.genTime k))) d]⟩ := by
              simp [gameLoop, generate_image, analyze_image, hc, hgen, hana, hd]
            rw [hstep, ih]
            have hlen : okLen env k (m + 1) = okLen env (k + 1) m + 1 := by
              simp [okLen, hok]
            have hrec :
                (List.range' (k + 1) (okLen env (k + 1) m)).map
                    (recFrom env d (k + 1)) =
                  (List.range' (k + 1) (okLen env (k + 1) m)).map
                    (recFrom env p k) := by
              apply List.map_congr_left
              intro i hi
              rcases List.mem_range'.mp hi with ⟨j, _, hj⟩
              have hge : k + 1 ≤ i := by omega
              simp [recFrom, promptFrom_step env p d k i hdesc hge]
            have hblk :
                (List.range' (k + 1) (okLen env (k + 1) m)).map
                    (blkFrom env d (k + 1) N) =
                  (List.range' (k + 1) (okLen env (k + 1) m)).map
                    (blkFrom env p k N) := by
              apply List.map_congr_left
              intro i hi
              rcases List.mem_range'.mp hi with ⟨j, _, hj⟩
              have hge : k + 1 ≤ i := by omega
              simp [blkFrom, promptFrom_step env p d k i hdesc hge]
            rw [hlen, List.range'_succ]
            have hk0 : recFrom env p k k =
                ⟨k, p, some (decodedImage u),
                  some (imagePathOf (env.genTime k)), d⟩ := by
              simp [recFrom, promptFrom_self, hdesc, hurl]
            have hb0 : blkFrom env p k N k =
                .cycleBlock k N p (some (imagePathOf (env.genTime k))) d := by
              simp [blkFrom, promptFrom_self, hdesc]
            have hprompt :
                promptFrom env d (k + 1) (k + 1 + okLen env (k + 1) m) =
                  promptFrom env p k (k + (okLen env (k + 1) m + 1)) := by
              rw [promptFrom_step env p d k _ hdesc (by omega)]
              have : k + 1 + okLen env (k + 1) m = k + (okLen env (k + 1) m + 1) := by
                omega
              rw [this]
            have hidx : k + 1 + okLen env (k + 1) m = k + (okLen env (k + 1) m + 1) := by
              omega
            simp only [LoopOut.mk.injEq, RunState.mk.injEq]
            refine ⟨⟨?_, ?_⟩, ?_, ?_⟩
            · simp [List.map_cons, hrec, hk0, List.append_assoc]
            · simp [List.map_cons, hblk, hb0, List.append_assoc]
            · exact hprompt
            · rw [hidx]
              have hiff : (okLen env (k + 1) m + 1 = m + 1) ↔
                  (okLen env (k + 1) m = m) := by omega
              by_cases hm : okLen env (k + 1) m = m
              · simp [hm]
              · simp [hm, hiff]
    · -- no client: generate_image returns (None, None, None) and the loop breaks
      have hok : cycleOkB env k = false := by simp [cycleOkB, hc]
      have hcrash : genCrashB env k = false := by simp [genCrashB, hc]
      simp [gameLoop, generate_image, okLen, hok, hc, hcrash, promptFrom_self]

theorem okLen_le (env : GenEnv) : ∀ m k, okLen env k m ≤ m := by
  intro m
  induction m with
  | zero => intro k; simp [okLen]
  | succ m ih =>
    intro k
    by_cases h : cycleOkB env k = true
    · simpa [okLen, h] using ih (k + 1)
    · simp [okLen, h]

theorem okLen_of_all_ok (env : GenEnv) :
    ∀ m k, (∀ i, k ≤ i → i < k + m → cycleOkB env i = true) →
      okLen env k m = m := by
  intro m
  induction m with
  | zero => intro k _; simp [okLen]
  | succ m ih =>
    intro k h
    have hk : cycleOkB env k = true := h k (Nat.le_refl _) (by omega)
    have : okLen env (k + 1) m = m :=
      ih (k + 1) (fun i h1 h2 => h i (by omega) (by omega))
    simp [okLen, hk, this]

theorem okLen_ge (env : GenEnv) :
    ∀ m c k, c ≤ m → (∀ i, k ≤ i → i < k + c → cycleOkB env i = true) →
      c ≤ okLen env k m := by
  intro m
  induction m with
  | zero => intro c k hc _; omega
  | succ m ih =>
    intro c k hc h
    match c, hc with
    | 0, _ => exact Nat.zero_le _
    | c + 1, hc =>
      have hk : cycleOkB env k = true := h k (Nat.le_refl _) (by omega)
      have : c ≤ okLen env (k + 1) m :=
        ih c (k + 1) (by omega) (fun i h1 h2 => h i (by omega) (by omega))
      simp [okLen, hk]
      omega

theorem okLen_first_bad (env : GenEnv) :
    ∀ m k f, (∀ i, k ≤ i → i < f → cycleOkB env i = true) →
      cycleOkB env f = false → k ≤ f → f < k + m →
      okLen env k m = f - k := by
  intro m
  induction m with
  | zero => intro k f _ _ _ _; omega
  | succ m ih =>
    intro k f hok hbad hkf hfm
    by_cases hk : k = f
    · subst hk
      simp [okLen, hbad]
    · have hklt : k < f := by omega
      have hcyc : cycleOkB env k = true := hok k (Nat.le_refl _) hklt
      have hrec : okLen env (k + 1) m = f - (k + 1) :=
        ih (k + 1) f (fun i h1 h2 => hok i (by omega) h2) hbad (by omega) (by omega)
      simp [okLen, hcyc, hrec]
      omega

theorem cycleOkB_false_of_crash (env : GenEnv) (f : Nat)
    (h : genCrashB env f = true) : cycleOkB env f = false := by
  unfold genCrashB at h
  unfold cycleOkB
  rcases hg : env.genApi f with e | u
  · simp [hg]
  · simp [hg] at h

/-- Full-success run: all `N` cycles append their records and blocks, the
footer is written, and the loop completes. -/
theorem startGame_ok (env : GenEnv) (N : Nat) (p0 : String) (ts : Nat)
    (t0 t1 : String)
    (hok : ∀ i, i ≤ N → 1 ≤ i → cycleOkB env i = true) :
    startGame env N p0 ts t0 t1 =
      ⟨⟨(List.range' 1 N).map (recFrom env p0 1),
        .header t0 p0 ::
          ((List.range' 1 N).map (blkFrom env p0 1 N) ++ [.footer t1])⟩,
       false, .completed, gameLogPath ts⟩ := by
  have hlen : okLen env 1 N = N :=
    okLen_of_all_ok env N 1 (fun i h1 h2 => hok i (by omega) h1)
  simp only [startGame, gameLoop_range', hlen]
  simp

/-- Run aborted by `break` on cycle `f` (analysis failure, empty
description, or missing client): cycles `1..f-1` are recorded, and the
footer is still appended by the post-loop code. -/
theorem startGame_abort (env : GenEnv) (N : Nat) (p0 : String) (ts : Nat)
    (t0 t1 : String) (f : Nat) (h1 : 1 ≤ f) (h2 : f ≤ N)
    (hok : ∀ i, i < f → 1 ≤ i → cycleOkB env i = true)
    (hbad : cycleOkB env f = false) (hnc : genCrashB env f = false) :
    startGame env N p0 ts t0 t1 =
      ⟨⟨(List.range' 1 (f - 1)).map (recFrom env p0 1),
        .header t0 p0 ::
          ((List.range' 1 (f - 1)).map (blkFrom env p0 1 N) ++ [.footer t1])⟩,
       false, .aborted f, gameLogPath ts⟩ := by
  have hlen : okLen env 1 N = f - 1 :=
    okLen_first_bad env N 1 f (fun i h1i hif => hok i hif h1i) hbad h1 (by omega)
  have hf : 1 + (f - 1) = f := by omega
  have hne : ¬ (f - 1 = N) := by omega
  simp only [startGame, gameLoop_range', hlen, hf, hne, if_false, hnc]
  simp

/-- Run killed on cycle `f` by the uncaught `ValueError` (generation API
raised, `generate_image` returned a 4-tuple): cycles `1..f-1` are
recorded, no footer is written, and `running` stays `True`. -/
theorem startGame_crash (env : GenEnv) (N : Nat) (p0 : String) (ts : Nat)
    (t0 t1 : String) (f : Nat) (h1 : 1 ≤ f) (h2 : f ≤ N)
    (hok : ∀ i, i < f → 1 ≤ i → cycleOkB env i = true)
    (hcrash : genCrashB env f = true) :
    startGame env N p0 ts t0 t1 =
      ⟨⟨(List.range' 1 (f - 1)).map (recFrom env p0 1),
        .header t0 p0 :: (List.range' 1 (f - 1)).map (blkFrom env p0 1 N)⟩,
       true, .valueError f, gameLogPath ts⟩ := by
  have hbad : cycleOkB env f = false := cycleOkB_false_of_crash env f hcrash
  have hlen : okLen env 1 N = f - 1 :=
    okLen_first_bad env N 1 f (fun i h1i hif => hok i hif h1i) hbad h1 (by omega)
  have hf : 1 + (f - 1) = f := by omega
  have hne : ¬ (f - 1 = N) := by omega
  simp only [startGame, gameLoop_range', hlen, hf, hne, if_false, hcrash, if_true]
  simp

/-- The session's cycle list after any run: exactly the records of the
initial streak of successful cycles, whatever ends the loop. -/
theorem startGame_cycles (env : GenEnv) (N : Nat) (p0 : String) (ts : Nat)
    (t0 t1 : String) :
    (startGame env N p0 ts t0 t1).state.cycles
      = (List.range' 1 (okLen env 1 N)).map (recFrom env p0 1) := by
  simp only [startGame, gameLoop_range']
  by_cases h : okLen env 1 N = N
  · simp [h]
  · by_cases h2 : genCrashB env (1 + okLen env 1 N) = true
    · simp [h, h2]
    · simp [h, h2]

/-- Indexing into the mapped cycle range. -/
theorem getD_map_range' {α : Type} (f : Nat → α) (d : α) (s n i : Nat)
    (h : i < n) : ((List.range' s n).map f).getD i d = f (s + i) := by
  rw [List.getD_eq_getElem?_getD, List.getElem?_map, List.getElem?_range' s 1 h]
  simp

/-! ## Claim C1 -/

/-- Claim C1: in every run in which all `N` requested cycles succeed, the
session has exactly `N` cycle records, status `Completed`, the first
record's prompt is the initial prompt, and each later record's prompt is
the previous record's description. -/
theorem C1_success_threading (env : GenEnv) (N : Nat) (p0 : String)
    (ts : Nat) (t0 t1 : String) (hN : 1 ≤ N)
    (hok : ∀ i, i ≤ N → 1 ≤ i → cycleOkB env i = true) :
    (startGame env N p0 ts t0 t1).state.cycles.length = N
    ∧ (startGame env N p0 ts t0 t1).status = .Completed
    ∧ ((startGame env N p0 ts t0 t1).state.cycles.getD 0 default).prompt = p0
    ∧ ∀ i, 1 ≤ i → i < N →
        ((startGame env N p0 ts t0 t1).state.cycles.getD i default).prompt
          = ((startGame env N p0 ts t0 t1).state.cycles.getD (i - 1)
              default).description := by
  rw [startGame_ok env N p0 ts t0 t1 hok]
  refine ⟨by simp, by simp [GameResult.status], ?_, ?_⟩
  · rw [show ((⟨⟨(List.range' 1 N).map (recFrom env p0 1),
        .header t0 p0 :: ((List.range' 1 N).map (blkFrom env p0 1 N)
          ++ [.footer t1])⟩, false, .completed,
        gameLogPath ts⟩ : GameResult)).state.cycles
        = (List.range' 1 N).map (recFrom env p0 1) from rfl,
      getD_map_range' _ _ 1 N 0 (by omega)]
    simp [recFrom, promptFrom]
  · intro i h1 h2
    rw [show ((⟨⟨(List.range' 1 N).map (recFrom env p0 1),
        .header t0 p0 :: ((List.range' 1 N).map (blkFrom env p0 1 N)
          ++ [.footer t1])⟩, false, .completed,
        gameLogPath ts⟩ : GameResult)).state.cycles
        = (List.range' 1 N).map (recFrom env p0 1) from rfl,
      getD_map_range' _ _ 1 N i (by omega),
      getD_map_range' _ _ 1 N (i - 1) (by omega)]
    have hi : ¬ (1 + i ≤ 1) := by omega
    have hidx : 1 + i - 1 = 1 + (i - 1) := by omega
    simp [recFrom, promptFrom, hi, hidx]

/-- Witness for C1, the spec's concrete scenario: three cycles with a
constant analysis stub. -/
theorem C1_success_threading_witness :
    ((1 ≤ 3 ∧ ∀ i, i ≤ 3 → 1 ≤ i → cycleOkB stubEnv i = true)
    ∧ ((startGame stubEnv 3 "a cat wearing a wizard hat" 0 "t0" "t1").state.cycles.length = 3
    ∧ (startGame stubEnv 3 "a cat wearing a wizard hat" 0 "t0" "t1").status = .Completed
    ∧ ((startGame stubEnv 3 "a cat wearing a wizard hat" 0 "t0" "t1").state.cycles.getD 0 default).prompt = "a cat wearing a wizard hat"
    ∧ ∀ i, 1 ≤ i → i < 3 →
        ((startGame stubEnv 3 "a cat wearing a wizard hat" 0 "t0" "t1").state.cycles.getD i default).prompt
          = ((startGame stubEnv 3 "a cat wearing a wizard hat" 0 "t0" "t1").state.cycles.getD (i - 1)
              default).description)) :=
  ⟨⟨by decide, by decide⟩,
    C1_success_threading stubEnv 3 "a cat wearing a wizard hat" 0 "t0" "t1"
      (by decide) (by decide)⟩

/-! ## Claim C2 -/

/-- Claim C2 (code bug): when the generation API call raises on cycle 1,
`generate_image` returns `(None, None, None, None)` (source line 80) and
the three-variable unpacking at line 234 raises an uncaught `ValueError`:
the run does not stop in `Aborted` as the claim requires — it crashes with
`running` still `True`. The claim does hold for the analysis-failure
path. -/
theorem C2_generation_error_crashes_not_aborts :
    (startGame genFailEnv 3 "p" 0 "t0" "t1").outcome = .valueError 1
    ∧ (startGame genFailEnv 3 "p" 0 "t0" "t1").status ≠ .Aborted
    ∧ (startGame genFailEnv 3 "p" 0 "t0" "t1").running = true
    ∧ (startGame genFailEnv 3 "p" 0 "t0" "t1").state.cycles = [] := by
  decide

/-! ## Claim C3 -/

/-- Claim C3 counterexample: analysis fails on cycle 2, the run ends
`Aborted` with one cycle record, yet the log file does contain the footer:
the footer append at source lines 276–277 runs unconditionally after the
loop, also after a `break`. -/
theorem C3_aborted_log_has_footer :
    (startGame anaFail2Env 3 "p0" 0 "S" "E").status = .Aborted
    ∧ (startGame anaFail2Env 3 "p0" 0 "S" "E").state.cycles.length = 1
    ∧ LogEntry.footer "E" ∈ (startGame anaFail2Env 3 "p0" 0 "S" "E").state.log := by
  decide

/-- Claim C3 as amended: a completed `N`-cycle run's log is exactly one
header, then the `N` cycle blocks in order, then one footer; a run aborted
by `break` on cycle `f` leaves the header, the `f - 1` blocks — and the
footer as well, because the post-loop footer append is unconditional (only
the uncaught-`ValueError` crash leaves no footer). -/
theorem C3_log_structure (env : GenEnv) (N : Nat) (p0 : String) (ts : Nat)
    (t0 t1 : String) :
    ((∀ i, i ≤ N → 1 ≤ i → cycleOkB env i = true) →
      (startGame env N p0 ts t0 t1).state.log
        = .header t0 p0 ::
            ((List.range' 1 N).map (blkFrom env p0 1 N) ++ [.footer t1]))
    ∧ (∀ f, 1 ≤ f → f ≤ N →
        (∀ i, i < f → 1 ≤ i → cycleOkB env i = true) →
        cycleOkB env f = false → genCrashB env f = false →
        (startGame env N p0 ts t0 t1).state.log
          = .header t0 p0 ::
              ((List.range' 1 (f - 1)).map (blkFrom env p0 1 N)
                ++ [.footer t1])) := by
  constructor
  · intro hok
    rw [startGame_ok env N p0 ts t0 t1 hok]
  · intro f h1 h2 hok hbad hnc
    rw [startGame_abort env N p0 ts t0 t1 f h1 h2 hok hbad hnc]

/-- Witness for C3's amended claim: the abort branch at the concrete
analysis-fails-on-cycle-2 scenario. -/
theorem C3_log_structure_witness :
    (startGame anaFail2Env 3 "p0" 0 "S" "E").state.log
      = .header "S" "p0" ::
          ((List.range' 1 (2 - 1)).map (blkFrom anaFail2Env "p0" 1 3)
            ++ [.footer "E"]) :=
  (C3_log_structure anaFail2Env 3 "p0" 0 "S" "E").2 2 (by decide) (by decide)
    (by decide) (by decide) (by decide)

/-! ## Claim C4 -/

/-- Claim C4 (code bug): a generation-API exception on cycle 2 is not
contained by the run loop: the 4-tuple returned at source line 80 makes
the unpacking at line 234 raise `ValueError`, which nothing catches, so
the run dies mid-loop (`running` stays `True`, no footer is written)
instead of ending in `Aborted`. -/
theorem C4_uncaught_exception_escapes :
    (startGame genFail2Env 5 "seed" 7 "t0" "t1").outcome = .valueError 2
    ∧ (startGame genFail2Env 5 "seed" 7 "t0" "t1").running = true
    ∧ (startGame genFail2Env 5 "seed" 7 "t0" "t1").status ≠ .Aborted
    ∧ (startGame genFail2Env 5 "seed" 7 "t0" "t1").state.log
        = [.header "t0" "seed",
           .cycleBlock 1 5 "seed" (some (imagePathOf 101)) "a description"] := by
  decide

/-! ## Claim C5 -/

/-- Claim C5: with no capability credential configured, pressing start
only shows the API-key warning: no session is started, no log file is
created, and no run (hence no generation or analysis call) happens. -/
theorem C5_no_credential_no_run (env : GenEnv) (start_button : Bool)
    (p : String) (N ts : Nat) (t0 t1 : String)
    (h : env.hasClient = false) :
    mainStart env start_button p N ts t0 t1 = ⟨true, false, [], none⟩ := by
  simp [mainStart, h]

/-- Witness for C5 at a concrete unconfigured environment. -/
theorem C5_no_credential_no_run_witness :
    noKeyEnv.hasClient = false
    ∧ mainStart noKeyEnv true "a prompt" 3 0 "t0" "t1" = ⟨true, false, [], none⟩ :=
  ⟨rfl, C5_no_credential_no_run noKeyEnv true "a prompt" 3 0 "t0" "t1" rfl⟩

/-! ## Claim C10 -/

/-- Claim C10: with a client configured but an empty initial prompt, the
`elif start_button and initial_prompt` guard is falsy, so pressing start
does nothing at all: no warning, no session reset, no log file, no run. -/
theorem C10_empty_prompt_no_action (env : GenEnv) (start_button : Bool)
    (N ts : Nat) (t0 t1 : String) (h : env.hasClient = true) :
    mainStart env start_button "" N ts t0 t1 = ⟨false, false, [], none⟩ := by
  simp [mainStart, h]

/-- Witness for C10 with the start button pressed. -/
theorem C10_empty_prompt_no_action_witness :
    stubEnv.hasClient = true
    ∧ mainStart stubEnv true "" 3 0 "t0" "t1" = ⟨false, false, [], none⟩ :=
  ⟨rfl, C10_empty_prompt_no_action stubEnv true 3 0 "t0" "t1" rfl⟩

/-! ## Claim C8 -/

/-- Claim C8 counterexample: the log filename is derived from
`int(time.time())`, which has one-second resolution; two runs started
within the same second get the *same* log path, so the second run's
`open(log_path, "w")` truncates the first run's log. -/
theorem C8_same_second_collision :
    ¬ (∀ t1 t2 : Nat, t1 ≤ t2 → gameLogPath t1 ≠ gameLogPath t2) := by
  intro h
  exact h 1700000000 1700000000 (Nat.le_refl _) rfl

/-- Claim C8 as amended: two runs whose integer start timestamps differ
get distinct log file names; only runs started within the same second
collide (and then the second overwrites the first). -/
theorem C8_distinct_seconds_distinct_logs (t1 t2 : Nat) (h : t1 ≠ t2) :
    gameLogPath t1 ≠ gameLogPath t2 :=
  fun he => h (gameLogPath_inj t1 t2 he)

/-- Witness for C8's amended claim. -/
theorem C8_distinct_seconds_distinct_logs_witness :
    gameLogPath 1700000000 ≠ gameLogPath 1700000001 :=
  C8_distinct_seconds_distinct_logs 1700000000 1700000001 (by decide)

/-! ## Claim C9 -/

/-- Claim C9 counterexample: image artifact names also embed only
`int(time.time())`; two generations in the same second produce the same
path, so the later `image.save` overwrites the earlier artifact. -/
theorem C9_same_second_image_collision :
    ¬ (∀ t1 t2 : Nat, t1 ≤ t2 → imagePathOf t1 ≠ imagePathOf t2) := by
  intro h
  exact h 1700000000 1700000000 (Nat.le_refl _) rfl

/-- Claim C9 as amended: every persisted image lives under the
`telephone_game/` artifacts directory, and images saved in distinct
integer seconds have distinct names; a generation in the same second as a
previous one reuses the same name and overwrites it. -/
theorem C9_image_artifact_names (t1 t2 : Nat) (h : t1 ≠ t2) :
    imagePathOf t1 ≠ imagePathOf t2
    ∧ imagePathOf t1 = "telephone_game/" ++ ("image_" ++ (Nat.repr t1 ++ ".png")) := by
  constructor
  · exact fun he => h (imagePathOf_inj t1 t2 he)
  · apply String.ext
    have hsplit : ("telephone_game/image_" : String).data
        = ("telephone_game/" : String).data ++ ("image_" : String).data := by decide
    simp [imagePathOf, String.data_append, hsplit, List.append_assoc]

/-- Witness for C9's amended claim. -/
theorem C9_image_artifact_names_witness :
    imagePathOf 1700000000 ≠ imagePathOf 1700000001
    ∧ imagePathOf 1700000000
        = "telephone_game/" ++ ("image_" ++ (Nat.repr 1700000000 ++ ".png")) :=
  C9_image_artifact_names 1700000000 1700000001 (by decide)

/-! ## Claim C6 -/

/-- Claim C6: after any run the session's records carry the 1-based,
strictly increasing, gap-free cycle indices `1, 2, …, len`; record `i`
(0-based) equals exactly the value created when cycle `i + 1` succeeded
(records are never mutated after being appended); and when cycle `k` is
reached, the session holds exactly `k - 1` records at its start (the state
at the start of cycle `k` is the loop run over the first `k - 1`
iteration values). -/
theorem C6_records_invariant (env : GenEnv) (N : Nat) (p0 : String)
    (ts : Nat) (t0 t1 : String) :
    ((startGame env N p0 ts t0 t1).state.cycles.map (fun c => c.cycle)
        = List.range' 1 (startGame env N p0 ts t0 t1).state.cycles.length)
    ∧ (∀ i, i < (startGame env N p0 ts t0 t1).state.cycles.length →
        (startGame env N p0 ts t0 t1).state.cycles.getD i default
          = recFrom env p0 1 (i + 1))
    ∧ (∀ k, 1 ≤ k → k ≤ N + 1 →
        (∀ i, i < k → 1 ≤ i → cycleOkB env i = true) →
        (gameLoop env N (List.range' 1 (k - 1)) p0
            ⟨[], [.header t0 p0]⟩).state.cycles.length = k - 1) := by
  refine ⟨?_, ?_, ?_⟩
  · rw [startGame_cycles, List.map_map]
    simp only [List.length_map, List.length_range']
    have h1 : List.map ((fun c => c.cycle) ∘ recFrom env p0 1)
          (List.range' 1 (okLen env 1 N))
        = List.map id (List.range' 1 (okLen env 1 N)) :=
      List.map_congr_left fun i _ => rfl
    rw [h1, List.map_id]
  · intro i hi
    rw [startGame_cycles] at hi ⊢
    rw [List.length_map, List.length_range'] at hi
    rw [getD_map_range' _ _ 1 _ i hi, Nat.add_comm 1 i]
  · intro k hk1 hk2 hok
    have hlen : okLen env 1 (k - 1) = k - 1 :=
      okLen_of_all_ok env (k - 1) 1 (fun i hi1 hi2 => hok i (by omega) hi1)
    rw [gameLoop_range', hlen]
    simp

/-- Witness for C6: at the start of cycle 2 of the stub run the session
holds exactly one record. -/
theorem C6_records_invariant_witness :
    (gameLoop stubEnv 3 (List.range' 1 (2 - 1)) "p"
        ⟨[], [.header "a" "p"]⟩).state.cycles.length = 2 - 1 :=
  (C6_records_invariant stubEnv 3 "p" 0 "a" "b").2.2 2 (by decide) (by decide)
    (by decide)

/-! ## Claim C7 -/

/-- Claim C7: each log record is appended (a separate
`with open(log_path, "a")` block, closed — hence flushed — before the loop
proceeds), so whenever the first `k` cycles succeed, the final log of the
run — however it later ends, including the uncaught-exception crash —
starts with the header followed by the blocks of cycles `1..k`. -/
theorem C7_log_durable (env : GenEnv) (N : Nat) (p0 : String) (ts : Nat)
    (t0 t1 : String) (k : Nat) (hk : k ≤ N)
    (hok : ∀ i, i ≤ k → 1 ≤ i → cycleOkB env i = true) :
    (startGame env N p0 ts t0 t1).state.log.take (k + 1)
      = .header t0 p0 :: (List.range' 1 k).map (blkFrom env p0 1 N) := by
  have hge : k ≤ okLen env 1 N :=
    okLen_ge env N k 1 hk (fun i h1 h2 => hok i (by omega) h1)
  have hlog : ∃ tail, (startGame env N p0 ts t0 t1).state.log
      = .header t0 p0 ::
          ((List.range' 1 (okLen env 1 N)).map (blkFrom env p0 1 N) ++ tail) := by
    simp only [startGame, gameLoop_range']
    by_cases h : okLen env 1 N = N
    · exact ⟨[.footer t1], by simp [h]⟩
    · by_cases h2 : genCrashB env (1 + okLen env 1 N) = true
      · exact ⟨[], by simp [h, h2]⟩
      · exact ⟨[.footer t1], by simp [h, h2]⟩
  obtain ⟨tail, hlog⟩ := hlog
  rw [hlog, List.take_succ_cons]
  congr 1
  have hsplit : List.range' 1 (okLen env 1 N)
      = List.range' 1 k ++ List.range' (1 + k) (okLen env 1 N - k) := by
    rw [List.range'_append_1]
    congr 1
    omega
  rw [hsplit, List.map_append, List.append_assoc]
  exact List.take_left' (by simp)

/-- Witness for C7: cycle 1's block survives in the log of the run that
aborts on cycle 2. -/
theorem C7_log_durable_witness :
    (startGame anaFail2Env 3 "p0" 0 "S" "E").state.log.take (1 + 1)
      = .header "S" "p0" :: (List.range' 1 1).map (blkFrom anaFail2Env "p0" 1 3) :=
  C7_log_durable anaFail2Env 3 "p0" 0 "S" "E" 1 (by decide) (by decide)

end Telephone
